import Mathlib

/-!
Verification of the aor-postgrest-client request/response translator
(`src/index.js`) against its natural-language specification.

The single source file exports a dispatcher closing over an `apiUrl` and an
`httpClient`; it is built from three pure pieces: `convertFilters` (filter
encoder), `convertRESTRequestToHTTP` (request builder) and
`convertHTTPResponseToREST` (response decoder).  All of them are embedded
below as executable Lean functions over an explicit model of the JavaScript
values they manipulate; a JavaScript exception is modelled as `Except.error`.
-/

namespace AorPostgrest

/-- Model of the JavaScript values that flow through the translator: filter
values, JSON bodies and response bodies.  `vObj` is a key/value record in
insertion order (JavaScript object literals keep string keys in insertion
order); `vArr` is an array. -/
inductive JSValue where
  | vStr (s : String)
  | vBool (b : Bool)
  | vNum (n : Int)
  | vUndefined
  | vNull
  | vObj (fields : List (String × JSValue))
  | vArr (elems : List JSValue)

mutual

/-- JavaScript string conversion as performed by a template literal or by
`Object.prototype.toString` / `Array.prototype.toString`: strings pass
through, numbers and booleans print, `null`/`undefined` print their names,
plain objects print `[object Object]`, and arrays join their elements with
commas. -/
def jsTemplate : JSValue → String
  | .vStr s => s
  | .vBool b => cond b "true" "false"
  | .vNum n => toString n
  | .vNull => "null"
  | .vUndefined => "undefined"
  | .vObj _ => "[object Object]"
  | .vArr l => String.intercalate "," (jsTemplateArr l)

/-- `Array.prototype.join(",")` renders `null` and `undefined` elements as
the empty string and every other element via its string conversion. -/
def jsTemplateArr : List JSValue → List String
  | [] => []
  | JSValue.vNull :: rest => "" :: jsTemplateArr rest
  | JSValue.vUndefined :: rest => "" :: jsTemplateArr rest
  | v :: rest => jsTemplate v :: jsTemplateArr rest

end

/-- The `value.toString()` call of the encoder's `default` branch: a method
call on `null` raises a `TypeError` (`typeof null` is `"object"`, so `null`
reaches the `default` branch); objects and arrays stringify as usual. -/
def jsToStringMethod : JSValue → Except String String
  | .vNull => .error "TypeError: cannot read property toString of null"
  | v => .ok (jsTemplate v)

/-- Character-list core of `String.prototype.replace(/:/, "")`: the regex is
not global, so only the first colon is removed. -/
def removeFirstColonAux : List Char → List Char
  | [] => []
  | c :: cs => if c = ':' then cs else c :: removeFirstColonAux cs

/-- `value.replace(/:/, "")` on a string: removes the first colon occurrence
only, keeps every later colon. -/
def removeFirstColon (s : String) : String :=
  String.mk (removeFirstColonAux s.data)

/-- Encoding of one filter value, the `switch (typeof filters[key])` of
`convertFilters` (src/index.js lines 33-56): strings and the `default`
branch (objects, arrays, `null`) become `ilike.*...*` with the first colon
stripped, booleans `is.true`/`is.false`, `undefined` becomes `is.null`, and
numbers `eq.<n>`. -/
def convertFilterValue : JSValue → Except String String
  | .vStr s => .ok ("ilike.*" ++ removeFirstColon s ++ "*")
  | .vBool b => .ok ("is." ++ cond b "true" "false")
  | .vUndefined => .ok "is.null"
  | .vNum n => .ok ("eq." ++ toString n)
  | v =>
    match jsToStringMethod v with
    | .error e => .error e
    | .ok s => .ok ("ilike.*" ++ removeFirstColon s ++ "*")

/-- The filter encoder `convertFilters` (src/index.js lines 29-59).  The
filter object is modelled as its key/value entries in insertion order
(`Object.keys` enumerates string keys in insertion order; keys of a
JavaScript object are distinct).  An exception raised while encoding one
value aborts the whole encoding, as the exception propagates out of the
`.map` callback. -/
def convertFilters : List (String × JSValue) → Except String (List (String × String))
  | [] => .ok []
  | (k, v) :: rest =>
    match convertFilterValue v with
    | .error e => .error e
    | .ok s =>
      match convertFilters rest with
      | .error e => .error e
      | .ok r => .ok ((k, s) :: r)

/-! ### Headers, query strings and JSON bodies -/

/-- Character-wise lowercasing, the effect of `String.prototype.toLowerCase`
on the ASCII header names and sort orders this translator handles. -/
def jsToLower (s : String) : String :=
  String.mk (s.data.map Char.toLower)

/-- `Headers.set` of the Fetch API: replaces the value of an existing header
of the same name (header names compare case-insensitively) or appends the
pair.  The stored name keeps the case it was given; all reads are
case-insensitive, so this is observationally the normalising behaviour of a
`Headers` object. -/
def headersSet : List (String × String) → String → String → List (String × String)
  | [], n, v => [(n, v)]
  | (k, w) :: rest, n, v =>
    if jsToLower k = jsToLower n then (k, v) :: rest
    else (k, w) :: headersSet rest n v

/-- `Headers.get`: case-insensitive lookup of the first matching header. -/
def headersGet (hs : List (String × String)) (n : String) : Option String :=
  (hs.find? (fun p => jsToLower p.1 == jsToLower n)).map (fun p => p.2)

/-- `Headers.has`: case-insensitive membership test. -/
def headersHas (hs : List (String × String)) (n : String) : Bool :=
  (headersGet hs n).isSome

/-- Modelled from the spec (§6, external collaborator): the `query-string`
package's `stringify`, which renders an object as `key=value` pairs joined
by `&`.  Its percent-encoding and alphabetical key ordering are abstracted
(pairs are kept in list order and characters are kept verbatim); no claim
depends on either. -/
def stringifyQuery (q : List (String × String)) : String :=
  String.intercalate "&" (q.map (fun p => p.1 ++ "=" ++ p.2))

/-- `Object.assign(query, rest)`: every entry of `rest` is written into
`query` in order, overwriting an existing key in place or appending. -/
def setParam : List (String × String) → String → String → List (String × String)
  | [], k, v => [(k, v)]
  | (k', v') :: rest, k, v =>
    if k' = k then (k, v) :: rest else (k', v') :: setParam rest k v

/-- Fold of `setParam` over the assigned entries, the effect of
`Object.assign`. -/
def assignParams (q r : List (String × String)) : List (String × String) :=
  r.foldl (fun acc p => setParam acc p.1 p.2) q

mutual

/-- Modelled from the spec (thin I/O wrapper): `JSON.stringify` of a single
value.  `undefined` has no JSON representation (`none`); escaping of special
characters inside string literals is abstracted — no claim inspects a
serialized body. -/
def jsonOfValue : JSValue → Option String
  | .vStr s => some ("\"" ++ s ++ "\"")
  | .vNum n => some (toString n)
  | .vBool b => some (cond b "true" "false")
  | .vNull => some "null"
  | .vUndefined => none
  | .vObj fs => some ("\x7b" ++ String.intercalate "," (jsonOfFields fs) ++ "\x7d")
  | .vArr l => some ("[" ++ String.intercalate "," (jsonOfArr l) ++ "]")

/-- Object fields of `JSON.stringify`; a field whose value is `undefined`
is skipped. -/
def jsonOfFields : List (String × JSValue) → List String
  | [] => []
  | (k, v) :: rest =>
    match jsonOfValue v with
    | none => jsonOfFields rest
    | some s => ("\"" ++ k ++ "\":" ++ s) :: jsonOfFields rest

/-- Array elements of `JSON.stringify`; an `undefined` element serializes
as `null`. -/
def jsonOfArr : List JSValue → List String
  | [] => []
  | v :: rest =>
    (match jsonOfValue v with
     | none => "null"
     | some s => s) :: jsonOfArr rest

end

/-- `JSON.stringify(params.data)` where `data` is an object. -/
def jsonStringifyObj (fs : List (String × JSValue)) : String :=
  (jsonOfValue (.vObj fs)).getD "null"

/-! ### The request builder -/

/-- Operation-kind constant exported by admin-on-rest (`rest/types`). -/
def GET_LIST : String := "GET_LIST"

/-- Operation-kind constant exported by admin-on-rest (`rest/types`). -/
def GET_ONE : String := "GET_ONE"

/-- Operation-kind constant exported by admin-on-rest (`rest/types`). -/
def GET_MANY : String := "GET_MANY"

/-- Operation-kind constant exported by admin-on-rest (`rest/types`). -/
def GET_MANY_REFERENCE : String := "GET_MANY_REFERENCE"

/-- Operation-kind constant exported by admin-on-rest (`rest/types`). -/
def CREATE : String := "CREATE"

/-- Operation-kind constant exported by admin-on-rest (`rest/types`). -/
def UPDATE : String := "UPDATE"

/-- Operation-kind constant exported by admin-on-rest (`rest/types`). -/
def DELETE : String := "DELETE"

/-- `params.pagination` of a LIST call. -/
structure Pagination where
  page : Int
  perPage : Int

/-- `params.sort` of a LIST / GET_MANY_REFERENCE call. -/
structure SortSpec where
  field : String
  order : String

/-- The request-parameter record.  Each operation kind reads only the fields
relevant to it; modelling them in one record lets every theorem quantify
over arbitrary parameters.  `ids` holds the already-stringified identifiers
joined by `Array.prototype.join` for GET_MANY. -/
structure Params where
  pagination : Pagination
  sort : SortSpec
  filter : List (String × JSValue)
  id : JSValue
  ids : List String
  target : String
  data : List (String × JSValue)

/-- The request option set: headers, and the optional `method` / `body`
fields assigned by the write branches (`fetch` defaults the method to GET
when absent). -/
structure Options where
  headers : List (String × String)
  method : Option String
  body : Option String

/-- The HTTP request descriptor `{ url, options }` returned by the
builder. -/
structure HTTPRequest where
  url : String
  options : Options

/-- Truthiness of the freshly constructed `Headers` object: an object
reference is always truthy in JavaScript, so the guard
`if (!options.headers)` on the line after `options.headers = new Headers()`
never fires. -/
def headersTruthy (_ : List (String × String)) : Bool := true

/-- Helper `singleResourceUrl` (src/index.js lines 62-65):
`{apiUrl}/{resource}?id=eq.{params.id}` through the query serializer. -/
def singleResourceUrl (apiUrl resource : String) (params : Params) : String :=
  apiUrl ++ "/" ++ resource ++ "?" ++ stringifyQuery [("id", "eq." ++ jsTemplate params.id)]

/-- Helper `setSingleResponseHeaders` (src/index.js lines 67-70). -/
def setSingleResponseHeaders (hs : List (String × String)) : List (String × String) :=
  headersSet (headersSet hs "Prefer" "return=representation")
    "Accept" "application/vnd.pgrst.object+json"

/-- The request builder `convertRESTRequestToHTTP` (src/index.js lines
78-143).  The token store read `localStorage.getItem("token")` is passed in
as `token` (`none` models a missing key, for which `getItem` returns `null`
and the subsequent `token.length` access raises a `TypeError`).  A thrown
JavaScript exception is an `Except.error`. -/
def convertRESTRequestToHTTP (apiUrl : String) (token : Option String)
    (type resource : String) (params : Params) : Except String HTTPRequest :=
  let headers : List (String × String) := []
  let headers :=
    if headersTruthy headers then headers
    else headersSet headers "Accept" "application/json"
  match token with
  | none => .error "TypeError: cannot read property length of null"
  | some t =>
    let headers :=
      if t.length > 16 then headersSet headers "Authorization" ("Bearer " ++ t)
      else headers
    if type = GET_LIST then
      let page := params.pagination.page
      let perPage := params.pagination.perPage
      let headers := headersSet headers "Range-Unit" "items"
      let headers := headersSet headers "Range"
        (toString ((page - 1) * perPage) ++ "-" ++ toString (page * perPage - 1))
      let headers := headersSet headers "Prefer" "count=exact"
      match convertFilters params.filter with
      | .error e => .error e
      | .ok filt =>
        let query :=
          assignParams [("order", params.sort.field ++ "." ++ jsToLower params.sort.order)] filt
        .ok ⟨apiUrl ++ "/" ++ resource ++ "?" ++ stringifyQuery query, ⟨headers, none, none⟩⟩
    else if type = GET_ONE then
      .ok ⟨singleResourceUrl apiUrl resource params,
           ⟨setSingleResponseHeaders headers, none, none⟩⟩
    else if type = GET_MANY then
      .ok ⟨apiUrl ++ "/" ++ resource ++ "?id=in.(" ++ String.intercalate "," params.ids ++ ")",
           ⟨headers, none, none⟩⟩
    else if type = GET_MANY_REFERENCE then
      match convertFilters [(params.target, params.id)] with
      | .error e => .error e
      | .ok filt =>
        let query :=
          assignParams [("order", params.sort.field ++ "." ++ jsToLower params.sort.order)] filt
        .ok ⟨apiUrl ++ "/" ++ resource ++ "?" ++ stringifyQuery query, ⟨headers, none, none⟩⟩
    else if type = UPDATE then
      .ok ⟨singleResourceUrl apiUrl resource params,
           ⟨setSingleResponseHeaders headers, some "PATCH", some (jsonStringifyObj params.data)⟩⟩
    else if type = CREATE then
      .ok ⟨apiUrl ++ "/" ++ resource,
           ⟨setSingleResponseHeaders headers, some "POST", some (jsonStringifyObj params.data)⟩⟩
    else if type = DELETE then
      .ok ⟨singleResourceUrl apiUrl resource params, ⟨headers, some "DELETE", none⟩⟩
    else
      .error ("Unsupported fetch action type " ++ type)

/-! ### The response decoder -/

/-- The transport response as materialized by the `fetchJson` collaborator:
a `Headers`-like case-insensitive header map and the parsed JSON body. -/
structure HTTPResponse where
  headers : List (String × String)
  json : JSValue

/-- The REST result variant returned to the caller: a list with a total
(`total` is an `Option Int`, `none` modelling JavaScript `NaN`), or a plain
`{data}` record. -/
inductive RESTResult where
  | listResult (data : JSValue) (total : Option Int)
  | dataResult (data : JSValue)

/-- Longest leading run of decimal digits, the digit scan of
`parseInt(s, 10)`. -/
def leadingDigits : List Char → List Char
  | [] => []
  | c :: cs => if c.isDigit then c :: leadingDigits cs else []

/-- Numeric value of a digit run. -/
def digitsVal (l : List Char) : Nat :=
  l.foldl (fun acc c => acc * 10 + (c.toNat - 48)) 0

/-- Digit-run part of `parseInt`: `none` models `NaN` (no digits). -/
def parseIntDigits (cs : List Char) : Option Int :=
  match leadingDigits cs with
  | [] => none
  | ds => some ((digitsVal ds : Nat) : Int)

/-- JavaScript `parseInt(s, 10)`: skip leading whitespace, accept one
optional sign, then read the longest digit prefix; `none` models `NaN`. -/
def parseIntJS (s : String) : Option Int :=
  match s.data.dropWhile Char.isWhitespace with
  | '-' :: rest => (parseIntDigits rest).map (fun n => -n)
  | '+' :: rest => parseIntDigits rest
  | cs => parseIntDigits cs

/-- Character-level `String.prototype.split(sep)` for a one-character
separator: the groups between separator occurrences, in order, possibly
empty. -/
def splitOnChar (sep : Char) : List Char → List (List Char)
  | [] => [[]]
  | c :: cs =>
    if c = sep then [] :: splitOnChar sep cs
    else
      match splitOnChar sep cs with
      | [] => [[c]]
      | g :: gs => (c :: g) :: gs

/-- `s.split(sep)` for a one-character separator. -/
def jsSplit (s : String) (sep : Char) : List String :=
  (splitOnChar sep s.data).map String.mk

/-- `Array.prototype.pop()` observed as a value: the last element.  Popping
an empty array yields `undefined`, for which the subsequent
`parseInt(undefined)` is `NaN`; the empty string has the same `parseInt`
result, so it stands in for that case. -/
def lastElem : List String → String
  | [] => ""
  | [x] => x
  | _ :: xs => lastElem xs

/-- Fallback operand of the total computation:
`parseInt(rangeParts[0].split("-").pop(), 10) + 1` evaluated on the array
left after the `pop()` (`NaN + 1` is `NaN`, i.e. `none` stays `none`); if
that array is empty, `rangeParts[0]` is `undefined` and the `.split` call
raises a `TypeError`. -/
def computeTotalFallback : List String → Except String (Option Int)
  | [] => .error "TypeError: cannot read property split of undefined"
  | r0 :: _ =>
    match parseIntJS (lastElem (jsSplit r0 '-')) with
    | some m => .ok (some (m + 1))
    | none => .ok none

/-- The total computation of the LIST/GET_MANY_REFERENCE decoder
(src/index.js lines 168-171):
`parseInt(rangeParts.pop(), 10) || parseInt(rangeParts[0].split("-").pop(), 10) + 1`.
JavaScript `||` takes the right operand when the left is falsy, i.e. when it
is `NaN` or `0`. -/
def computeTotal (cr : String) : Except String (Option Int) :=
  match parseIntJS (lastElem (jsSplit cr '/')) with
  | some n =>
    if n = 0 then computeTotalFallback (jsSplit cr '/').dropLast
    else .ok (some n)
  | none => computeTotalFallback (jsSplit cr '/').dropLast

/-- Property read `json.id`: lookup on an object (missing field gives
`undefined`), `TypeError` on `null`/`undefined`, `undefined` on other
primitives. -/
def propAccess : JSValue → String → Except String JSValue
  | .vNull, p => .error ("TypeError: cannot read property " ++ p ++ " of null")
  | .vUndefined, p => .error ("TypeError: cannot read property " ++ p ++ " of undefined")
  | .vObj fs, p => .ok ((fs.lookup p).getD .vUndefined)
  | _, _ => .ok .vUndefined

/-- `json.slice()`: a shallow copy of an array (equal to it in this pure
model); strings also expose `slice`; any other receiver raises a
`TypeError`. -/
def jsSlice : JSValue → Except String JSValue
  | .vArr l => .ok (.vArr l)
  | .vStr s => .ok (.vStr s)
  | _ => .error "TypeError: json.slice is not a function"

/-- `{...params.data, id: v}`: the spread keeps the submitted fields in
order, then the `id` entry overwrites an existing `id` field in place or is
appended. -/
def setField : List (String × JSValue) → String → JSValue → List (String × JSValue)
  | [], k, v => [(k, v)]
  | (k', v') :: rest, k, v =>
    if k' = k then (k, v) :: rest else (k', v') :: setField rest k v

/-- The error message thrown when a LIST/GET_MANY_REFERENCE response lacks
the `Content-Range` header (src/index.js lines 159-166). -/
def missingRangeMessage : String :=
  "The Content-Range header is missing in the HTTP Response. " ++
  "The PostgREST client expects responses for lists of resources to contain " ++
  "this header with the total number of results to build the pagination. " ++
  "If you are using CORS, did you declare Content-Range in the " ++
  "Access-Control-Expose-Headers header?"

/-- The response decoder `convertHTTPResponseToREST` (src/index.js lines
152-182).  The header value is read through `getD ""` only after the
`has` guard has succeeded, so the default is never observed. -/
def convertHTTPResponseToREST (response : HTTPResponse) (type resource : String)
    (params : Params) : Except String RESTResult :=
  if type = GET_LIST ∨ type = GET_MANY_REFERENCE then
    if ! headersHas response.headers "content-range" then
      .error missingRangeMessage
    else
      match computeTotal ((headersGet response.headers "content-range").getD "") with
      | .error e => .error e
      | .ok total =>
        match jsSlice response.json with
        | .error e => .error e
        | .ok data => .ok (.listResult data total)
  else if type = CREATE then
    match propAccess response.json "id" with
    | .error e => .error e
    | .ok idv => .ok (.dataResult (.vObj (setField params.data "id" idv)))
  else if type = DELETE then
    .ok (.dataResult (.vObj []))
  else
    .ok (.dataResult response.json)

/-- The dispatcher (src/index.js lines 192-201): builds the descriptor,
invokes the transport, decodes.  A synchronous throw of the builder, a
transport rejection and a decoder throw all surface as the same failed
result. -/
def dispatch (apiUrl : String)
    (httpClient : String → Options → Except String HTTPResponse)
    (token : Option String) (type resource : String) (params : Params) :
    Except String RESTResult :=
  match convertRESTRequestToHTTP apiUrl token type resource params with
  | .error e => .error e
  | .ok req =>
    match httpClient req.url req.options with
    | .error e => .error e
    | .ok response => convertHTTPResponseToREST response type resource params

/-- A fixed parameter record used by the concrete evaluations below:
page 1, 10 per page, sort `id.ASC`, no filters, id 1, no data. -/
def p0 : Params :=
  ⟨⟨1, 10⟩, ⟨"id", "ASC"⟩, [], .vNum 1, [], "", []⟩

/-! ### Helper lemmas -/

theorem strDataAppend : ∀ a b : String, (a ++ b).data = a.data ++ b.data
  | ⟨_⟩, ⟨_⟩ => rfl

theorem strMkData : ∀ s : String, String.mk s.data = s
  | ⟨_⟩ => rfl

theorem strAppendAssoc : ∀ a b c : String, a ++ b ++ c = a ++ (b ++ c)
  | ⟨as⟩, ⟨bs⟩, ⟨cs⟩ => congrArg String.mk (List.append_assoc as bs cs)

theorem removeFirstColonAux_of_not_mem {l : List Char} (h : ':' ∉ l) :
    removeFirstColonAux l = l := by
  induction l with
  | nil => rfl
  | cons c cs ih =>
    simp only [List.mem_cons, not_or] at h
    simp [removeFirstColonAux, Ne.symm h.1, ih h.2]

theorem removeFirstColonAux_append {a : List Char} (b : List Char) (h : ':' ∉ a) :
    removeFirstColonAux (a ++ ':' :: b) = a ++ b := by
  induction a with
  | nil => simp [removeFirstColonAux]
  | cons c cs ih =>
    simp only [List.mem_cons, not_or] at h
    simp [removeFirstColonAux, Ne.symm h.1, ih h.2]

theorem removeFirstColon_split (a b : String) (ha : ':' ∉ a.data) :
    removeFirstColon (a ++ ":" ++ b) = a ++ b := by
  have hdata : (a ++ ":" ++ b).data = a.data ++ ':' :: b.data := by
    rw [strDataAppend, strDataAppend, List.append_assoc]
    rfl
  rw [removeFirstColon, hdata, removeFirstColonAux_append _ ha, ← strDataAppend, strMkData]

theorem removeFirstColon_of_not_mem (s : String) (h : ':' ∉ s.data) :
    removeFirstColon s = s := by
  rw [removeFirstColon, removeFirstColonAux_of_not_mem h, strMkData]

theorem splitOnChar_of_not_mem {c : Char} {l : List Char} (h : c ∉ l) :
    splitOnChar c l = [l] := by
  induction l with
  | nil => rfl
  | cons a as ih =>
    simp only [List.mem_cons, not_or] at h
    simp [splitOnChar, Ne.symm h.1, ih h.2]

theorem splitOnChar_append {c : Char} {a : List Char} (b : List Char) (h : c ∉ a) :
    splitOnChar c (a ++ c :: b) = a :: splitOnChar c b := by
  induction a with
  | nil => simp [splitOnChar]
  | cons x xs ih =>
    simp only [List.mem_cons, not_or] at h
    rw [List.cons_append, splitOnChar, if_neg (Ne.symm h.1), ih h.2]

theorem jsSplit_append (rng seg : String) (sep : Char)
    (hr : sep ∉ rng.data) (hs : sep ∉ seg.data) :
    jsSplit (rng ++ String.mk [sep] ++ seg) sep = [rng, seg] := by
  have hdata : (rng ++ String.mk [sep] ++ seg).data = rng.data ++ sep :: seg.data := by
    rw [strDataAppend, strDataAppend, List.append_assoc]
    rfl
  rw [jsSplit, hdata, splitOnChar_append _ hr, splitOnChar_of_not_mem hs]
  simp [strMkData]

theorem headersGet_set_self (hs : List (String × String)) (n v : String) :
    headersGet (headersSet hs n v) n = some v := by
  induction hs with
  | nil => simp [headersSet, headersGet]
  | cons p rest ih =>
    obtain ⟨k, w⟩ := p
    by_cases h : jsToLower k = jsToLower n
    · simp [headersSet, headersGet, h]
    · simp only [headersSet, if_neg h]
      simp only [headersGet, List.find?] at ih ⊢
      rw [show (jsToLower k == jsToLower n) = false by simp [h]]
      exact ih

theorem headersGet_set_ne {n₁ n₂ : String} (hs : List (String × String)) (v : String)
    (h : jsToLower n₁ ≠ jsToLower n₂) :
    headersGet (headersSet hs n₁ v) n₂ = headersGet hs n₂ := by
  induction hs with
  | nil => simp [headersSet, headersGet, h]
  | cons p rest ih =>
    obtain ⟨k, w⟩ := p
    by_cases hk : jsToLower k = jsToLower n₁
    · simp only [headersSet, if_pos hk]
      simp only [headersGet, List.find?]
      rw [show (jsToLower k == jsToLower n₂) = false by simp [hk, h]]
    · simp only [headersSet, if_neg hk]
      simp only [headersGet, List.find?] at ih ⊢
      cases hkk : (jsToLower k == jsToLower n₂) with
      | true => rfl
      | false => exact ih

theorem headersGet_nil (n : String) : headersGet [] n = none := rfl

theorem lookup_setField (d : List (String × JSValue)) (key k : String) (v : JSValue) :
    List.lookup k (setField d key v) =
      if k = key then some v else List.lookup k d := by
  induction d with
  | nil =>
    by_cases h : k = key
    · subst h
      simp [setField, List.lookup]
    · simp [setField, List.lookup, show (k == key) = false by simp [h], h]
  | cons p rest ih =>
    obtain ⟨k', v'⟩ := p
    by_cases hk : k' = key
    · subst hk
      by_cases h : k = k'
      · subst h
        simp [setField, List.lookup]
      · simp [setField, List.lookup, show (k == k') = false by simp [h], h]
    · rw [setField, if_neg hk]
      by_cases h : k = k'
      · subst h
        simp [List.lookup, if_neg (show ¬ k = key from hk)]
      · simp only [List.lookup, show (k == k') = false by simp [h], ih]

theorem convertFilters_lookup (m : List (String × JSValue))
    (r : List (String × String)) (k : String)
    (hok : convertFilters m = .ok r) :
    List.lookup k r = (List.lookup k m).bind (fun v => (convertFilterValue v).toOption) := by
  induction m generalizing r with
  | nil =>
    simp only [convertFilters] at hok
    cases hok
    simp [List.lookup]
  | cons p rest ih =>
    obtain ⟨k', v'⟩ := p
    simp only [convertFilters] at hok
    cases hcv : convertFilterValue v' with
    | error e => rw [hcv] at hok; cases hok
    | ok s =>
      rw [hcv] at hok
      cases hcf : convertFilters rest with
      | error e => rw [hcf] at hok; cases hok
      | ok r' =>
        rw [hcf] at hok
        cases hok
        by_cases h : k = k'
        · subst h
          simp [List.lookup, hcv, Except.toOption]
        · simp only [List.lookup, show (k == k') = false by simp [h]]
          exact ih r' hcf

theorem computeTotal_eq (rng seg : String) (hr : '/' ∉ rng.data) (hs : '/' ∉ seg.data) :
    computeTotal (rng ++ "/" ++ seg) =
      match parseIntJS seg with
      | some n => if n = 0 then computeTotalFallback [rng] else .ok (some n)
      | none => computeTotalFallback [rng] := by
  have hsplit : jsSplit (rng ++ "/" ++ seg) '/' = [rng, seg] := by
    have : ("/" : String) = String.mk ['/'] := rfl
    rw [this]
    exact jsSplit_append rng seg '/' hr hs
  rw [computeTotal, hsplit]
  rfl

theorem convertFilterValue_total (v : JSValue) (h : v ≠ .vNull) :
    ∃ s, convertFilterValue v = .ok s ∧
      ∃ t, s = "ilike." ++ t ∨ s = "is." ++ t ∨ s = "eq." ++ t := by
  cases v with
  | vStr s =>
    refine ⟨_, rfl, "*" ++ (removeFirstColon s ++ "*"), Or.inl ?_⟩
    rw [show ("ilike.*" : String) = "ilike." ++ "*" from rfl, strAppendAssoc, strAppendAssoc]
  | vBool b => exact ⟨_, rfl, cond b "true" "false", Or.inr (Or.inl rfl)⟩
  | vNum n => exact ⟨_, rfl, toString n, Or.inr (Or.inr rfl)⟩
  | vUndefined => exact ⟨_, rfl, "null", Or.inr (Or.inl rfl)⟩
  | vNull => exact absurd rfl h
  | vObj fs =>
    refine ⟨_, rfl, "*" ++ (removeFirstColon (jsTemplate (.vObj fs)) ++ "*"), Or.inl ?_⟩
    rw [show ("ilike.*" : String) = "ilike." ++ "*" from rfl, strAppendAssoc, strAppendAssoc]
  | vArr l =>
    refine ⟨_, rfl, "*" ++ (removeFirstColon (jsTemplate (.vArr l)) ++ "*"), Or.inl ?_⟩
    rw [show ("ilike.*" : String) = "ilike." ++ "*" from rfl, strAppendAssoc, strAppendAssoc]

/-! ### The claims -/

/-- C1: the claim says every request carries `Accept: application/json`
unless a kind-specific rule overrides it.  In the code the guard
`if (!options.headers)` sits right after `options.headers = new Headers()`
and therefore never fires, so a LIST request descriptor is produced with no
`Accept` header at all (while the rest of the descriptor, e.g. the `Range`
header, is intact): the evaluation below exhibits the failing input. -/
theorem C1_no_accept_header :
    ∃ req, convertRESTRequestToHTTP "http://api" (some "01234567890123456")
        GET_LIST "posts" p0 = .ok req ∧
      headersHas req.options.headers "Accept" = false ∧
      headersGet req.options.headers "Range" = some "0-9" := by
  refine ⟨_, rfl, ?_, ?_⟩ <;> decide

/-- C2 counterexample: the filter encoder is not total — a `null` filter
value reaches the `default` branch (`typeof null` is `"object"`) and the
`.toString()` call raises a `TypeError` instead of producing a string. -/
theorem C2_counterexample_null_value :
    convertFilters [("q", JSValue.vNull)]
      = .error "TypeError: cannot read property toString of null" := rfl

/-- C2 (amended): for every filter mapping all of whose values are non-null
(string, boolean, number, undefined, object, array), encoding succeeds and
every encoded value is an operator-prefixed string (`ilike.`, `is.` or
`eq.`); a `null` value raises a `TypeError`. -/
theorem C2_filter_encoder_total_except_null (m : List (String × JSValue))
    (h : ∀ p ∈ m, p.2 ≠ JSValue.vNull) :
    ∃ r, convertFilters m = .ok r ∧
      ∀ q ∈ r, ∃ t, q.2 = "ilike." ++ t ∨ q.2 = "is." ++ t ∨ q.2 = "eq." ++ t := by
  induction m with
  | nil => exact ⟨[], rfl, by simp⟩
  | cons p rest ih =>
    obtain ⟨k, v⟩ := p
    obtain ⟨s, hs, hp⟩ := convertFilterValue_total v (h (k, v) (List.mem_cons_self _ _))
    obtain ⟨r, hr, hall⟩ := ih (fun q hq => h q (List.mem_cons_of_mem _ hq))
    refine ⟨(k, s) :: r, by simp [convertFilters, hs, hr], ?_⟩
    intro q hq
    rcases List.mem_cons.mp hq with h1 | h1
    · subst h1
      exact hp
    · exact hall q h1

/-- Witness for C2: a mapping with one value of each non-null type
encodes successfully into operator-prefixed strings. -/
theorem C2_filter_encoder_total_except_null_witness :
    ∃ r, convertFilters [("s", JSValue.vStr "x:y"), ("b", JSValue.vBool true),
        ("n", JSValue.vNum 3), ("u", JSValue.vUndefined), ("o", JSValue.vObj []),
        ("l", JSValue.vArr [JSValue.vNull])] = .ok r ∧
      ∀ q ∈ r, ∃ t, q.2 = "ilike." ++ t ∨ q.2 = "is." ++ t ∨ q.2 = "eq." ++ t :=
  C2_filter_encoder_total_except_null _ (by
    intro p hp
    simp only [List.mem_cons, List.not_mem_nil, or_false] at hp
    rcases hp with h | h | h | h | h | h <;> subst h <;> simp)

/-- C4: a CREATE response decodes to the submitted data with exactly the
`id` field adopted from the response body: looking up `id` in the result
yields the response's `id`, looking up any other key yields the submitted
value (so every other response field is discarded), and the spec's concrete
example decodes accordingly. -/
theorem C4_create_merges_only_id (hs : List (String × String))
    (r : List (String × JSValue)) (resource : String) (params : Params) (k : String) :
    convertHTTPResponseToREST ⟨hs, .vObj r⟩ CREATE resource params
        = .ok (.dataResult (.vObj
            (setField params.data "id" ((r.lookup "id").getD .vUndefined)))) ∧
    List.lookup k (setField params.data "id" ((r.lookup "id").getD .vUndefined))
        = (if k = "id" then some ((r.lookup "id").getD .vUndefined)
           else List.lookup k params.data) ∧
    convertHTTPResponseToREST
        ⟨[], .vObj [("id", .vNum 42), ("name", .vStr "y"), ("extra", .vStr "z")]⟩
        CREATE "posts" ⟨⟨1, 10⟩, ⟨"id", "ASC"⟩, [], .vNum 1, [], "", [("name", .vStr "x")]⟩
        = .ok (.dataResult (.vObj [("name", .vStr "x"), ("id", .vNum 42)])) :=
  ⟨rfl, lookup_setField _ _ _ _, rfl⟩

/-- C5: a string filter value encodes as `ilike.*v*` with only the first
colon removed: splitting the value at its first colon, the encoder outputs
the two halves concatenated, and in particular `"a:b:c"` encodes as
`ilike.*ab:c*`. -/
theorem C5_string_filter_first_colon (a b : String) (ha : ':' ∉ a.data) :
    convertFilterValue (.vStr (a ++ ":" ++ b)) = .ok ("ilike.*" ++ (a ++ b) ++ "*") ∧
    convertFilterValue (.vStr "a:b:c") = .ok "ilike.*ab:c*" := by
  constructor
  · simp only [convertFilterValue, removeFirstColon_split a b ha]
  · rfl

/-- Witness for C5 at `a = "ab"`, `b = "cd"`. -/
theorem C5_string_filter_first_colon_witness :
    convertFilterValue (.vStr ("ab" ++ ":" ++ "cd"))
        = .ok ("ilike.*" ++ ("ab" ++ "cd") ++ "*") ∧
    convertFilterValue (.vStr "a:b:c") = .ok "ilike.*ab:c*" :=
  C5_string_filter_first_colon "ab" "cd" (by decide)

/-- C9: in a successfully encoded filter mapping, a field bound to
`undefined` encodes as the parameter value `is.null`, whereas a field
absent from the mapping yields no parameter at all. -/
theorem C9_undefined_encodes_null (m : List (String × JSValue))
    (r : List (String × String)) (k : String)
    (hok : convertFilters m = .ok r) :
    (List.lookup k m = some .vUndefined → List.lookup k r = some "is.null") ∧
    (List.lookup k m = none → List.lookup k r = none) := by
  have h := convertFilters_lookup m r k hok
  constructor
  · intro hm
    rw [h, hm]
    rfl
  · intro hm
    rw [h, hm]
    rfl

/-- Witness for C9: in the encoding of `{a: undefined, b: 2}`, the key `a`
maps to `is.null` and the absent key `zz` maps to nothing. -/
theorem C9_undefined_encodes_null_witness :
    (List.lookup "a" [("a", "is.null"), ("b", "eq.2")] = some "is.null") ∧
    (List.lookup "zz" [("a", "is.null"), ("b", "eq.2")] = none) :=
  ⟨(C9_undefined_encodes_null [("a", JSValue.vUndefined), ("b", JSValue.vNum 2)]
      [("a", "is.null"), ("b", "eq.2")] "a" rfl).1 rfl,
   (C9_undefined_encodes_null [("a", JSValue.vUndefined), ("b", JSValue.vNum 2)]
      [("a", "is.null"), ("b", "eq.2")] "zz" rfl).2 rfl⟩

/-- C10: with no stored token (`getItem` returns `null`), the token-length
read fails with a `TypeError` for every operation kind and parameter
record: no request descriptor is produced, and the dispatched call fails
identically for any two transports, i.e. without invoking the transport. -/
theorem C10_null_token_type_error (apiUrl ty resource : String) (params : Params)
    (c1 c2 : String → Options → Except String HTTPResponse) :
    convertRESTRequestToHTTP apiUrl none ty resource params
        = .error "TypeError: cannot read property length of null" ∧
    dispatch apiUrl c1 none ty resource params
        = .error "TypeError: cannot read property length of null" ∧
    dispatch apiUrl c1 none ty resource params
        = dispatch apiUrl c2 none ty resource params :=
  ⟨rfl, rfl, rfl⟩

/-- C3 counterexample: `Content-Range: 0-9/0` has the shape
`<start>-<end>/<segment>` with a segment that is a valid integer (`parseInt`
yields `0`), yet the decoded total is `10` (= end + 1), not `0`: the `||`
fallback also fires on a parsed total of zero because `0` is falsy. -/
theorem C3_counterexample_zero_total :
    parseIntJS "0" = some 0 ∧
    convertHTTPResponseToREST ⟨[("Content-Range", "0-9/0")], .vArr []⟩ GET_LIST "posts" p0
      = .ok (.listResult (.vArr []) (some 10)) ∧
    ¬ convertHTTPResponseToREST ⟨[("Content-Range", "0-9/0")], .vArr []⟩ GET_LIST "posts" p0
      = .ok (.listResult (.vArr []) (some 0)) := by
  refine ⟨rfl, rfl, fun h => ?_⟩
  have h2 : (Except.ok (RESTResult.listResult (.vArr []) (some 10)) :
      Except String RESTResult) = .ok (.listResult (.vArr []) (some 0)) := h
  simp at h2

/-- C3 (amended): for a LIST or GET_MANY_REFERENCE response whose
`Content-Range` value is `<range>/<segment>`, if the segment parses
(decimal-prefix `parseInt`) to a nonzero integer the decoded total is that
integer; if it fails to parse (e.g. `*`) or parses to `0`, the total is
instead `parseInt` of the part after the last `-` of the range portion,
plus one. -/
theorem C3_content_range_total (resp : HTTPResponse) (l : List JSValue)
    (rng seg resource : String) (params : Params) (ty : String)
    (hty : ty = GET_LIST ∨ ty = GET_MANY_REFERENCE)
    (hjson : resp.json = .vArr l)
    (hhdr : headersGet resp.headers "content-range" = some (rng ++ "/" ++ seg))
    (hr : '/' ∉ rng.data) (hsg : '/' ∉ seg.data) :
    (∀ n : Int, parseIntJS seg = some n → n ≠ 0 →
        convertHTTPResponseToREST resp ty resource params
          = .ok (.listResult (.vArr l) (some n))) ∧
    ((parseIntJS seg = none ∨ parseIntJS seg = some 0) →
        convertHTTPResponseToREST resp ty resource params
          = .ok (.listResult (.vArr l)
              ((parseIntJS (lastElem (jsSplit rng '-'))).map (fun e => e + 1)))) := by
  have hhas : headersHas resp.headers "content-range" = true := by
    rw [headersHas, hhdr]
    rfl
  have hbody : convertHTTPResponseToREST resp ty resource params =
      match computeTotal (rng ++ "/" ++ seg) with
      | .error e => .error e
      | .ok total => .ok (.listResult (.vArr l) total) := by
    rw [convertHTTPResponseToREST, if_pos hty, hhas, hhdr, hjson]
    simp [jsSlice]
  rw [computeTotal_eq rng seg hr hsg] at hbody
  constructor
  · intro n hn hne
    rw [hbody, hn]
    simp [hne]
  · intro hc
    have hfall : computeTotalFallback [rng] =
        .ok ((parseIntJS (lastElem (jsSplit rng '-'))).map (fun e => e + 1)) := by
      rw [computeTotalFallback]
      cases hp : parseIntJS (lastElem (jsSplit rng '-')) <;> simp
    rcases hc with h0 | h0 <;> rw [hbody, h0] <;> simp [hfall]

/-- Witness for C3: a LIST response with header `0-9/*` decodes to total 10
and a GET_MANY_REFERENCE response with header `0-9/23` decodes to
total 23. -/
theorem C3_content_range_total_witness :
    convertHTTPResponseToREST ⟨[("Content-Range", "0-9/*")], .vArr []⟩ GET_LIST "posts" p0
      = .ok (.listResult (.vArr []) (some 10)) ∧
    convertHTTPResponseToREST ⟨[("Content-Range", "0-9/23")], .vArr []⟩
        GET_MANY_REFERENCE "posts" p0
      = .ok (.listResult (.vArr []) (some 23)) := by
  constructor
  · exact (C3_content_range_total ⟨[("Content-Range", "0-9/*")], .vArr []⟩ []
      "0-9" "*" "posts" p0 GET_LIST (Or.inl rfl) rfl rfl (by decide) (by decide)).2
      (Or.inl rfl)
  · exact (C3_content_range_total ⟨[("Content-Range", "0-9/23")], .vArr []⟩ []
      "0-9" "23" "posts" p0 GET_MANY_REFERENCE (Or.inr rfl) rfl rfl (by decide)
      (by decide)).1 23 rfl (by decide)

set_option maxRecDepth 10000 in
/-- C6: a LIST or GET_MANY_REFERENCE response without a `Content-Range`
header makes the decoder fail with the missing-range error (the message
names the `Content-Range` header and CORS) and no result is produced. -/
theorem C6_missing_content_range (resp : HTTPResponse) (resource : String)
    (params : Params) (ty : String)
    (hty : ty = GET_LIST ∨ ty = GET_MANY_REFERENCE)
    (h : headersHas resp.headers "content-range" = false) :
    convertHTTPResponseToREST resp ty resource params = .error missingRangeMessage ∧
    (∃ u v, missingRangeMessage = u ++ "Content-Range" ++ v) ∧
    (∃ u v, missingRangeMessage = u ++ "CORS" ++ v) := by
  refine ⟨?_,
    ⟨"The ",
     " header is missing in the HTTP Response. The PostgREST client expects responses for lists of resources to contain this header with the total number of results to build the pagination. If you are using CORS, did you declare Content-Range in the Access-Control-Expose-Headers header?",
     by decide⟩,
    ⟨"The Content-Range header is missing in the HTTP Response. The PostgREST client expects responses for lists of resources to contain this header with the total number of results to build the pagination. If you are using ",
     ", did you declare Content-Range in the Access-Control-Expose-Headers header?",
     by decide⟩⟩
  rw [convertHTTPResponseToREST, if_pos hty, h]
  simp

/-- Witness for C6 on a concrete headerless response. -/
theorem C6_missing_content_range_witness :
    convertHTTPResponseToREST ⟨[("X-Other", "1")], .vNull⟩ GET_LIST "posts" p0
        = .error missingRangeMessage ∧
    (∃ u v, missingRangeMessage = u ++ "Content-Range" ++ v) ∧
    (∃ u v, missingRangeMessage = u ++ "CORS" ++ v) :=
  C6_missing_content_range ⟨[("X-Other", "1")], .vNull⟩ "posts" p0 GET_LIST
    (Or.inl rfl) (by decide)

/-- C7: an operation kind outside the supported enumeration makes the
builder throw `Unsupported fetch action type <type>`; the dispatched call
fails with that error and its outcome is independent of the transport
collaborator, i.e. the transport is never invoked. -/
theorem C7_unsupported_type (ty : String)
    (h : ty ≠ GET_LIST ∧ ty ≠ GET_ONE ∧ ty ≠ GET_MANY ∧ ty ≠ GET_MANY_REFERENCE ∧
         ty ≠ CREATE ∧ ty ≠ UPDATE ∧ ty ≠ DELETE)
    (apiUrl resource t : String) (params : Params)
    (c1 c2 : String → Options → Except String HTTPResponse) :
    dispatch apiUrl c1 (some t) ty resource params
        = .error ("Unsupported fetch action type " ++ ty) ∧
    dispatch apiUrl c1 (some t) ty resource params
        = dispatch apiUrl c2 (some t) ty resource params := by
  obtain ⟨h1, h2, h3, h4, h5, h6, h7⟩ := h
  have hb : convertRESTRequestToHTTP apiUrl (some t) ty resource params
      = .error ("Unsupported fetch action type " ++ ty) := by
    simp [convertRESTRequestToHTTP, h1, h2, h3, h4, h5, h6, h7]
  constructor
  · rw [dispatch, hb]
  · rw [dispatch, dispatch, hb]

/-- Witness for C7 at the unrecognized kind `"FOO"` and two transports with
different behaviour. -/
theorem C7_unsupported_type_witness :
    dispatch "u" (fun _ _ => .error "network") (some "tok") "FOO" "posts" p0
        = .error ("Unsupported fetch action type " ++ "FOO") ∧
    dispatch "u" (fun _ _ => .error "network") (some "tok") "FOO" "posts" p0
        = dispatch "u" (fun _ _ => .ok ⟨[], .vNull⟩) (some "tok") "FOO" "posts" p0 :=
  C7_unsupported_type "FOO" (by refine ⟨?_, ?_, ?_, ?_, ?_, ?_, ?_⟩ <;> decide)
    "u" "posts" "tok" p0 (fun _ _ => .error "network") (fun _ _ => .ok ⟨[], .vNull⟩)

theorem authGate_core (t url : String) (m b : Option String)
    (H : List (String × String)) (req : HTTPRequest)
    (h : (Except.ok ⟨url, ⟨H, m, b⟩⟩ : Except String HTTPRequest) = .ok req)
    (h₁ : ¬ 16 < t.length → headersGet H "Authorization" = none)
    (h₂ : 16 < t.length → headersGet H "Authorization" = some ("Bearer " ++ t)) :
    (t.length ≤ 16 → headersHas req.options.headers "Authorization" = false) ∧
    (16 < t.length → headersGet req.options.headers "Authorization"
        = some ("Bearer " ++ t)) := by
  injection h with h
  subst h
  constructor
  · intro hle
    rw [show (HTTPRequest.mk url ⟨H, m, b⟩).options.headers = H from rfl, headersHas,
        h₁ (by omega)]
    rfl
  · intro hlt
    rw [show (HTTPRequest.mk url ⟨H, m, b⟩).options.headers = H from rfl]
    exact h₂ hlt

/-- C8: whenever the builder produces a request descriptor, a stored token
of length at most 16 results in no `Authorization` header at all, and a
token of length greater than 16 results in the header
`Authorization: Bearer <token>` — for every operation kind and parameter
record. -/
theorem C8_token_length_gate (apiUrl ty resource : String) (params : Params)
    (t : String) (req : HTTPRequest)
    (h : convertRESTRequestToHTTP apiUrl (some t) ty resource params = .ok req) :
    (t.length ≤ 16 → headersHas req.options.headers "Authorization" = false) ∧
    (16 < t.length → headersGet req.options.headers "Authorization"
        = some ("Bearer " ++ t)) := by
  simp only [convertRESTRequestToHTTP, headersTruthy, if_true] at h
  split at h
  · -- GET_LIST
    split at h
    · exact absurd h (by simp)
    · refine authGate_core t _ _ _ _ req h (fun hlen => ?_) (fun hlen => ?_)
      · rw [headersGet_set_ne _ _ (by decide), headersGet_set_ne _ _ (by decide),
            headersGet_set_ne _ _ (by decide), if_neg hlen]
        rfl
      · rw [headersGet_set_ne _ _ (by decide), headersGet_set_ne _ _ (by decide),
            headersGet_set_ne _ _ (by decide), if_pos hlen, headersGet_set_self]
  · split at h
    · -- GET_ONE
      refine authGate_core t _ _ _ _ req h (fun hlen => ?_) (fun hlen => ?_)
      · rw [setSingleResponseHeaders, headersGet_set_ne _ _ (by decide),
            headersGet_set_ne _ _ (by decide), if_neg hlen]
        rfl
      · rw [setSingleResponseHeaders, headersGet_set_ne _ _ (by decide),
            headersGet_set_ne _ _ (by decide), if_pos hlen, headersGet_set_self]
    · split at h
      · -- GET_MANY
        refine authGate_core t _ _ _ _ req h (fun hlen => ?_) (fun hlen => ?_)
        · rw [if_neg hlen]
          rfl
        · rw [if_pos hlen, headersGet_set_self]
      · split at h
        · -- GET_MANY_REFERENCE
          split at h
          · exact absurd h (by simp)
          · refine authGate_core t _ _ _ _ req h (fun hlen => ?_) (fun hlen => ?_)
            · rw [if_neg hlen]
              rfl
            · rw [if_pos hlen, headersGet_set_self]
        · split at h
          · -- UPDATE
            refine authGate_core t _ _ _ _ req h (fun hlen => ?_) (fun hlen => ?_)
            · rw [setSingleResponseHeaders, headersGet_set_ne _ _ (by decide),
                  headersGet_set_ne _ _ (by decide), if_neg hlen]
              rfl
            · rw [setSingleResponseHeaders, headersGet_set_ne _ _ (by decide),
                  headersGet_set_ne _ _ (by decide), if_pos hlen, headersGet_set_self]
          · split at h
            · -- CREATE
              refine authGate_core t _ _ _ _ req h (fun hlen => ?_) (fun hlen => ?_)
              · rw [setSingleResponseHeaders, headersGet_set_ne _ _ (by decide),
                    headersGet_set_ne _ _ (by decide), if_neg hlen]
                rfl
              · rw [setSingleResponseHeaders, headersGet_set_ne _ _ (by decide),
                    headersGet_set_ne _ _ (by decide), if_pos hlen, headersGet_set_self]
            · split at h
              · -- DELETE
                refine authGate_core t _ _ _ _ req h (fun hlen => ?_) (fun hlen => ?_)
                · rw [if_neg hlen]
                  rfl
                · rw [if_pos hlen, headersGet_set_self]
              · -- unsupported kind: no descriptor
                exact absurd h (by simp)

/-- Witness for C8: a 17-character token yields the bearer header; a
3-character token yields no `Authorization` header. -/
theorem C8_token_length_gate_witness :
    ∃ reqL reqS,
      convertRESTRequestToHTTP "u" (some "01234567890123456") GET_ONE "posts" p0
          = .ok reqL ∧
      convertRESTRequestToHTTP "u" (some "tok") GET_ONE "posts" p0 = .ok reqS ∧
      headersGet reqL.options.headers "Authorization"
          = some ("Bearer " ++ "01234567890123456") ∧
      headersHas reqS.options.headers "Authorization" = false := by
  refine ⟨_, _, rfl, rfl, ?_, ?_⟩
  · exact (C8_token_length_gate "u" GET_ONE "posts" p0 "01234567890123456" _ rfl).2
      (by decide)
  · exact (C8_token_length_gate "u" GET_ONE "posts" p0 "tok" _ rfl).1 (by decide)

end AorPostgrest
